import Mathlib

/-!
Shallow embedding of `tf_agents/bandits/policies/boltzmann_reward_prediction_policy.py`
(class `BoltzmannRewardPredictionPolicy`): the construction-time validation performed by
`__init__` and the per-call `_distribution` computation.

Conventions of the embedding:
* float tensors are real-valued; a batch-by-num-actions tensor is a `List (List Real)`;
* the per-call randomness (the Gumbel draws of the Boltzmann-Gumbel branch, and the
  noise of the categorical sampler of the temperature branch) is passed explicitly as
  an input field, one value per batch element per action;
* the mutable `tf.Variable` counters of `num_samples_list` are embedded by explicit
  state passing: the call returns the (unchanged) counter values next to the policy
  step, mirroring that the source only ever calls `read_value` on them;
* fallible code returns `Except String`.
-/

namespace Boltzmann

/-- Modelled from the spec: the info-field names of `policy_utilities.InfoFields`
(repository code that is not under src); only the four fields this policy can emit
are represented ("Each field present only if its name appears in the configured
emission set"). -/
inductive InfoField where
  | logProbability
  | predictedRewardsMean
  | banditPolicyType
  | chosenArmFeatures
  deriving DecidableEq

/-- Modelled from the spec: the policy-type tag enum of
`policy_utilities.BanditPolicyType` (repository code that is not under src);
`boltzmann` is the constant "Boltzmann" marker this policy broadcasts, `uniform`
stands for the other members of the enum. -/
inductive BanditPolicyType where
  | uniform
  | boltzmann
  deriving DecidableEq

/-- The `temperature` constructor argument: a float, or a zero-argument callable
returning a float. -/
inductive Temperature where
  | const (t : ℝ)
  | func (f : Unit → ℝ)

/-- Faithful to `_get_temperature_value` (lines 187-190): call the temperature if it
is callable, otherwise use it directly. -/
def getTemperatureValue : Temperature → ℝ
  | Temperature.const t => t
  | Temperature.func f => f ()

/-- One flattened component of the `action_spec` argument, carrying exactly the
attributes `__init__` inspects: boundedness, discreteness, shape rank, number of
elements, and the `[minimum, maximum]` range. -/
structure SpecComponent where
  isBounded : Bool
  isDiscrete : Bool
  rank : ℕ
  numElements : ℕ
  minimum : ℤ
  maximum : ℤ

/-- The constructor arguments of `BoltzmannRewardPredictionPolicy.__init__` that
participate in validation or are stored for later calls.  `numSamplesList` holds the
current values of the `tf.Variable` counters, `splitterPresent` records whether an
`observation_and_action_constraint_splitter` was supplied. -/
structure InitArgs where
  actionSpecs : List SpecComponent
  temperature : Temperature
  bgConstant : Option ℝ
  splitterPresent : Bool
  acceptsPerArmFeatures : Bool
  emitPolicyInfo : List InfoField
  numSamplesList : List ℕ

/-- The state a successfully constructed policy stores for its calls
(`_expected_num_actions`, `_action_offset`, `_temperature`,
`_boltzmann_gumbel_exploration_constant`, `_num_samples_list`, `_emit_policy_info`,
`_accepts_per_arm_features`). -/
structure Policy where
  expectedNumActions : ℤ
  actionOffset : ℤ
  temperature : Temperature
  bgConstant : Option ℝ
  numSamplesList : List ℕ
  emitPolicyInfo : List InfoField
  acceptsPerArmFeatures : Bool

open Classical in
/-- The part of `__init__` that runs on the single flattened action-spec component
(lines 108-140): the bounded scalar discrete spec check, the computation of
`_expected_num_actions` and `_action_offset`, and — only when a Boltzmann-Gumbel
exploration constant is supplied — the positivity, offset, per-arm and
counter-length checks. -/
noncomputable def initCore (a : InitArgs) (spec : SpecComponent) : Except String Policy :=
  if spec.isBounded = false ∨ spec.isDiscrete = false ∨ 1 < spec.rank ∨
      spec.numElements ≠ 1 then
    Except.error "action spec must be a bounded scalar discrete spec"
  else
    match a.bgConstant with
    | none =>
        Except.ok
          { expectedNumActions := spec.maximum - spec.minimum + 1
            actionOffset := spec.minimum
            temperature := a.temperature
            bgConstant := a.bgConstant
            numSamplesList := a.numSamplesList
            emitPolicyInfo := a.emitPolicyInfo
            acceptsPerArmFeatures := a.acceptsPerArmFeatures }
    | some c =>
        if c ≤ 0 then
          Except.error "the Boltzmann-Gumbel exploration constant must be positive"
        else if 0 < spec.minimum then
          Except.error "action offset is not supported with Boltzmann-Gumbel"
        else if a.acceptsPerArmFeatures = true then
          Except.error "Boltzmann-Gumbel is not supported for arm features"
        else if (a.numSamplesList.length : ℤ) ≠ spec.maximum - spec.minimum + 1 then
          Except.error "size of num samples list does not match the number of actions"
        else
          Except.ok
            { expectedNumActions := spec.maximum - spec.minimum + 1
              actionOffset := spec.minimum
              temperature := a.temperature
              bgConstant := a.bgConstant
              numSamplesList := a.numSamplesList
              emitPolicyInfo := a.emitPolicyInfo
              acceptsPerArmFeatures := a.acceptsPerArmFeatures }

/-- Faithful translation of `__init__` (lines 99-140).  In order: the check of
`policy_utilities.check_no_mask_with_arm_features` (modelled from the spec: "Fails
if a mask-producing splitter is combined with per-arm-feature mode", the helper is
repository code that is not under src), the single-component check, the access to
`flat_action_spec[0]`, then `initCore` on that component. -/
noncomputable def init (a : InitArgs) : Except String Policy :=
  if a.acceptsPerArmFeatures = true ∧ a.splitterPresent = true then
    Except.error "per-arm features are incompatible with a mask splitter"
  else if 1 < a.actionSpecs.length then
    Except.error "action spec can only contain a single component"
  else
    match a.actionSpecs.head? with
    | none => Except.error "empty action spec"
    | some spec => initCore a spec

/-- The per-call inputs of `_distribution`, with the external collaborators already
resolved: `rows` is the reward network's `predicted_reward_values` (after the
heteroscedastic extraction), `staticShape` its statically known tensor shape,
`mask` the result of `construct_mask_from_multiple_sources`, `noise` the per-call
randomness (one draw per batch element per action), `armFeatures` the per-arm
feature block of the observation, `nextState` the recurrent state the network
returned, and `dtypeMin` the minimum representable value of the logits dtype. -/
structure CallInput (σ : Type) where
  staticShape : List (Option ℕ)
  rows : List (List ℝ)
  dtypeMin : ℝ
  mask : Option (List (List ℕ))
  noise : List (List ℝ)
  armFeatures : List (List (List ℝ))
  nextState : σ

/-- Faithful translation of the shape validation of `_distribution` (lines 208-216):
`with_rank_at_least(2)`, `with_rank_at_most(3)`, and the `ValueError` when the
statically known last dimension differs from `_expected_num_actions`. -/
def checkPredictionShape (shape : List (Option ℕ)) (n : ℤ) : Except String Unit :=
  if shape.length < 2 then Except.error "shape must have rank at least 2"
  else if 3 < shape.length then Except.error "shape must have rank at most 3"
  else
    match shape.getLast? with
    | some (some d) =>
        if (d : ℤ) ≠ n then
          Except.error "the number of actions does not match the reward network output size"
        else Except.ok ()
    | _ => Except.ok ()

/-- Mask application (lines 227-230 and 252-255):
`tf.compat.v2.where(tf.cast(mask, tf.bool), logits, logits.dtype.min)` — entries
whose mask value is nonzero keep their logit, the others are overwritten with the
minimum representable value of the logits dtype. -/
def maskedLogits (dtypeMin : ℝ) (mask : Option (List (List ℕ)))
    (rows : List (List ℝ)) : List (List ℝ) :=
  match mask with
  | none => rows
  | some m =>
      List.zipWith (fun row mrow =>
        List.zipWith (fun l mi => if mi ≠ 0 then l else dtypeMin) row mrow) rows m

open Classical in
/-- `tf.math.divide_no_nan`: the quotient, except that a zero divisor yields zero. -/
noncomputable def divideNoNan (a b : ℝ) : ℝ := if b = 0 then 0 else a / b

/-- One entry of `exploration_weights` (lines 237-239):
`tf.math.divide_no_nan(c, tf.sqrt(n))` for a counter value `n`. -/
noncomputable def explorationWeight (c : ℝ) (n : ℕ) : ℝ :=
  divideNoNan c (Real.sqrt n)

open Classical in
/-- Index of the first maximum of a row: `tf.math.argmax` along the action axis. -/
noncomputable def argmaxIdx (l : List ℝ) : ℕ :=
  (List.range l.length).foldl (fun best j => if l.getD best 0 < l.getD j 0 then j else best) 0

/-- The final Boltzmann-Gumbel scores (line 240):
`logits + exploration_weights * gumbel_samples`, the `[num_actions]`-shaped weight
vector broadcast across the batch. -/
noncomputable def bgScores (c : ℝ) (counts : List ℕ)
    (masked noise : List (List ℝ)) : List (List ℝ) :=
  let weights := counts.map (explorationWeight c)
  List.zipWith (fun row grow =>
    List.zipWith (fun x y => x + y) row (List.zipWith (fun w g => w * g) weights grow))
    masked noise

/-- Modelled from the spec: one row of `tfp.distributions.Categorical`, or of the
shifted-categorical primitive (`tf_agents.distributions.shifted_categorical`,
repository code that is not under src, spec: "sample from a categorical
distribution whose sampled indices are shifted by `action_offset`"); `shift` is 0
for the plain categorical.  A draw of the categorical sampler is represented by its
exact Gumbel-max parameterization: the sampler receives one noise value per action
and the sampled index is the arg-max of logits plus noise. -/
structure CatDist where
  logits : List ℝ
  shift : ℤ

/-- Sampling from a (shifted) categorical distribution: arg-max of logits plus the
per-call noise, then shifted. -/
noncomputable def CatDist.sample (d : CatDist) (g : List ℝ) : ℤ :=
  (argmaxIdx (List.zipWith (fun x y => x + y) d.logits g) : ℤ) + d.shift

/-- Log-probability of index `a` under a categorical distribution with the given
logits: the log of the softmax probability of `a`. -/
noncomputable def categoricalLogProb (logits : List ℝ) (a : ℤ) : ℝ :=
  logits.getD a.toNat 0 - Real.log ((logits.map Real.exp).sum)

/-- Log-probability under a (shifted) categorical distribution: the shift is
subtracted from the action before looking up the categorical log-probability. -/
noncomputable def CatDist.logProb (d : CatDist) (a : ℤ) : ℝ :=
  categoricalLogProb d.logits (a - d.shift)

/-- The temperature scaling of the temperature branch (line 248):
`predicted_reward_values / self._get_temperature_value()`. -/
noncomputable def temperatureLogits (p : Policy) (rows : List (List ℝ)) : List (List ℝ) :=
  rows.map (fun row => row.map (fun x => x / getTemperatureValue p.temperature))

open Classical in
/-- The exploration engine of `_distribution` (lines 222-268): it produces the
chosen actions and their log-probabilities.  With a Boltzmann-Gumbel constant the
actions are the arg-max of the masked logits plus count-scaled Gumbel noise, cast
to the action dtype, and the log-probability is the constant zero; otherwise the
temperature-scaled, masked logits parameterize a (shifted, when the offset is
nonzero) categorical distribution and the action is sampled from it, with its
log-probability under the same distribution. -/
noncomputable def explorationStep {σ : Type} (p : Policy) (inp : CallInput σ) :
    List ℤ × List ℝ :=
  match p.bgConstant with
  | some c =>
      let masked := maskedLogits inp.dtypeMin inp.mask inp.rows
      ((bgScores c p.numSamplesList masked inp.noise).map (fun row => (argmaxIdx row : ℤ)),
       List.replicate inp.rows.length 0)
  | none =>
      let masked := maskedLogits inp.dtypeMin inp.mask (temperatureLogits p inp.rows)
      let ds := masked.map (fun row =>
        if p.actionOffset ≠ 0 then CatDist.mk row p.actionOffset else CatDist.mk row 0)
      (List.zipWith (fun d g => d.sample g) ds inp.noise,
       List.zipWith (fun d g => d.logProb (d.sample g)) ds inp.noise)

/-- The per-batch-row final scores whose arg-max (up to the shift of the
temperature-path categorical) is the chosen action: the Boltzmann-Gumbel scores in
Gumbel mode, the masked temperature-scaled logits plus the sampler noise otherwise. -/
noncomputable def finalScores {σ : Type} (p : Policy) (inp : CallInput σ) :
    List (List ℝ) :=
  match p.bgConstant with
  | some c => bgScores c p.numSamplesList (maskedLogits inp.dtypeMin inp.mask inp.rows) inp.noise
  | none =>
      List.zipWith (fun row g => List.zipWith (fun x y => x + y) row g)
        (maskedLogits inp.dtypeMin inp.mask (temperatureLogits p inp.rows)) inp.noise

/-- The action distribution the policy step emits.  The source can only ever build
`tfp.distributions.Deterministic(loc=actions)` (line 305); the categorical
alternative is included so that being a point mass is a meaningful statement. -/
inductive EmittedDistribution where
  | deterministic (loc : List ℤ)
  | categoricalDist (logits : List (List ℝ)) (shift : ℤ)

/-- The info record of the policy step; `none` is the explicit empty marker `()`
of the source's `PolicyInfo` / `PerArmPolicyInfo` named tuples. -/
structure PolicyInfoOut where
  logProbability : Option (List ℝ)
  predictedRewardsMean : Option (List (List ℝ))
  banditPolicyType : Option (List (List BanditPolicyType))
  chosenArmFeatures : Option (List (List ℝ))

/-- The `policy_step.PolicyStep` triple the call returns. -/
structure PolicyStepOut (σ : Type) where
  dist : EmittedDistribution
  state : σ
  info : PolicyInfoOut

/-- The info assembly of `_distribution` (lines 270-302): `log_probability`,
`predicted_rewards_mean` and `bandit_policy_type` are each emitted exactly when
their name is in `_emit_policy_info`; in per-arm mode `chosen_arm_features` is the
batched gather of the chosen action's feature slice and is always emitted. -/
def buildInfo {σ : Type} (p : Policy) (inp : CallInput σ) (actions : List ℤ)
    (logProb : List ℝ) : PolicyInfoOut :=
  { logProbability :=
      if InfoField.logProbability ∈ p.emitPolicyInfo then some logProb else none
    predictedRewardsMean :=
      if InfoField.predictedRewardsMean ∈ p.emitPolicyInfo then some inp.rows else none
    banditPolicyType :=
      if InfoField.banditPolicyType ∈ p.emitPolicyInfo then
        some (List.replicate inp.rows.length [BanditPolicyType.boltzmann])
      else none
    chosenArmFeatures :=
      if p.acceptsPerArmFeatures = true then
        some (List.zipWith (fun feats a => feats.getD a.toNat []) inp.armFeatures actions)
      else none }

/-- Faithful translation of `_distribution` (lines 192-305): validate the
prediction shape, run the exploration engine, assemble the info record, and return
a `Deterministic` action distribution together with the passthrough recurrent
state.  The second component of the result is the state of the `num_samples_list`
counters after the call; the source only reads them (`read_value`, line 235), so
they are returned unchanged. -/
noncomputable def distribution {σ : Type} (p : Policy) (inp : CallInput σ) :
    Except String (PolicyStepOut σ × List ℕ) :=
  match checkPredictionShape inp.staticShape p.expectedNumActions with
  | Except.error e => Except.error e
  | Except.ok _ =>
      let step := explorationStep p inp
      Except.ok
        ({ dist := EmittedDistribution.deterministic step.1
           state := inp.nextState
           info := buildInfo p inp step.1 step.2 },
         p.numSamplesList)

/-- Whether an `Except` value is an error. -/
def isErr {ε α : Type} : Except ε α → Bool
  | Except.error _ => true
  | Except.ok _ => false

/-! Concrete policies, call inputs and constructor arguments used to instantiate the
theorems below on explicit data. -/

/-- The minimum representable value of the float32 logits dtype,
`-((2^24 - 1) * 2^104)`. -/
noncomputable def float32Min : ℝ := -((2 ^ 24 - 1) * 2 ^ 104)

/-- A Boltzmann-Gumbel policy over two zero-offset actions, exploration constant 1,
counter values `[1, 1]`, empty emission set. -/
noncomputable def bgPolicy : Policy :=
  { expectedNumActions := 2
    actionOffset := 0
    temperature := Temperature.const 1
    bgConstant := some 1
    numSamplesList := [1, 1]
    emitPolicyInfo := []
    acceptsPerArmFeatures := false }

/-- A one-element batch for `bgPolicy`: predicted rewards `[0, 5]`, no mask, zero
Gumbel draws. -/
noncomputable def bgInput : CallInput Unit :=
  { staticShape := [some 1, some 2]
    rows := [[0, 5]]
    dtypeMin := float32Min
    mask := none
    noise := [[0, 0]]
    armFeatures := []
    nextState := () }

/-- The policy step `bgPolicy` produces on `bgInput`: action 1 with log-probability
zero, no info fields, counters unchanged. -/
def bgOut : PolicyStepOut Unit × List ℕ :=
  ({ dist := EmittedDistribution.deterministic [1]
     state := ()
     info := { logProbability := none, predictedRewardsMean := none
               banditPolicyType := none, chosenArmFeatures := none } },
   [1, 1])

/-- A one-element batch for `bgPolicy` whose mask `[0, 1]` rules out action 0 while
the eligible action 1 has the dtype-minimum predicted reward; the Gumbel draw for
the masked action is 1, for the eligible action 0. -/
noncomputable def maskViolationInput : CallInput Unit :=
  { staticShape := [some 1, some 2]
    rows := [[0, float32Min]]
    dtypeMin := float32Min
    mask := some [[0, 1]]
    noise := [[1, 0]]
    armFeatures := []
    nextState := () }

/-- A one-element batch for `bgPolicy` with an all-ones mask and rewards `[0, 5]`. -/
noncomputable def maskOkInput : CallInput Unit :=
  { staticShape := [some 1, some 2]
    rows := [[0, 5]]
    dtypeMin := float32Min
    mask := some [[1, 1]]
    noise := [[0, 0]]
    armFeatures := []
    nextState := () }

/-- A temperature-mode policy over two zero-offset actions, temperature 1, empty
emission set. -/
noncomputable def tempPolicy : Policy :=
  { expectedNumActions := 2
    actionOffset := 0
    temperature := Temperature.const 1
    bgConstant := none
    numSamplesList := []
    emitPolicyInfo := []
    acceptsPerArmFeatures := false }

/-- A one-element batch for the temperature-mode policies: predicted rewards
`[0, 1]`, no mask, zero sampler noise. -/
noncomputable def tempInput : CallInput Unit :=
  { staticShape := [some 1, some 2]
    rows := [[0, 1]]
    dtypeMin := float32Min
    mask := none
    noise := [[0, 0]]
    armFeatures := []
    nextState := () }

/-- The policy step `tempPolicy` produces on `tempInput`. -/
noncomputable def tempOut : PolicyStepOut Unit × List ℕ :=
  ({ dist := EmittedDistribution.deterministic [1]
     state := ()
     info := { logProbability := none, predictedRewardsMean := none
               banditPolicyType := none, chosenArmFeatures := none } },
   [])

/-- `tempPolicy` with the emission set `[predicted_rewards_mean]`. -/
noncomputable def meanPolicy : Policy :=
  { expectedNumActions := 2
    actionOffset := 0
    temperature := Temperature.const 1
    bgConstant := none
    numSamplesList := []
    emitPolicyInfo := [InfoField.predictedRewardsMean]
    acceptsPerArmFeatures := false }

/-- The policy step `meanPolicy` produces on `tempInput`: only the mean field of the
info record is populated, with the raw predicted rewards. -/
noncomputable def meanOut : PolicyStepOut Unit × List ℕ :=
  ({ dist := EmittedDistribution.deterministic [1]
     state := ()
     info := { logProbability := none, predictedRewardsMean := some [[0, 1]]
               banditPolicyType := none, chosenArmFeatures := none } },
   [])

/-- `tempPolicy` in per-arm-feature mode, still with an empty emission set. -/
noncomputable def perArmPolicy : Policy :=
  { expectedNumActions := 2
    actionOffset := 0
    temperature := Temperature.const 1
    bgConstant := none
    numSamplesList := []
    emitPolicyInfo := []
    acceptsPerArmFeatures := true }

/-- A one-element batch for `perArmPolicy`: the per-arm feature block carries the
feature vector `[5]` for action 0 and `[7]` for action 1. -/
noncomputable def perArmInput : CallInput Unit :=
  { staticShape := [some 1, some 2]
    rows := [[0, 1]]
    dtypeMin := float32Min
    mask := none
    noise := [[0, 0]]
    armFeatures := [[[5], [7]]]
    nextState := () }

/-- A valid bounded scalar discrete spec component with range `[0, 1]`. -/
def twoActionSpec : SpecComponent :=
  { isBounded := true, isDiscrete := true, rank := 0, numElements := 1
    minimum := 0, maximum := 1 }

/-- A valid bounded scalar discrete spec component with range `[-1, 0]`: its action
offset is `-1`, so the action range does not start at zero. -/
def negOffsetSpec : SpecComponent :=
  { isBounded := true, isDiscrete := true, rank := 0, numElements := 1
    minimum := -1, maximum := 0 }

/-- Boltzmann-Gumbel constructor arguments whose action range is `[-1, 0]`: the
offset is negative, yet every check of `__init__` passes. -/
noncomputable def negOffsetArgs : InitArgs :=
  { actionSpecs := [negOffsetSpec]
    temperature := Temperature.const 1
    bgConstant := some 1
    splitterPresent := false
    acceptsPerArmFeatures := false
    emitPolicyInfo := []
    numSamplesList := [0, 0] }

/-- The policy `negOffsetArgs` constructs. -/
noncomputable def negOffsetPolicy : Policy :=
  { expectedNumActions := 2
    actionOffset := -1
    temperature := Temperature.const 1
    bgConstant := some 1
    numSamplesList := [0, 0]
    emitPolicyInfo := []
    acceptsPerArmFeatures := false }

/-- Boltzmann-Gumbel constructor arguments with a zero exploration constant. -/
noncomputable def badConstArgs : InitArgs :=
  { actionSpecs := [twoActionSpec]
    temperature := Temperature.const 1
    bgConstant := some 0
    splitterPresent := false
    acceptsPerArmFeatures := false
    emitPolicyInfo := []
    numSamplesList := [0, 0] }

/-- Constructor arguments that supply both an explicit temperature `1/2` and a
Boltzmann-Gumbel exploration constant `1`. -/
noncomputable def bothArgs : InitArgs :=
  { actionSpecs := [twoActionSpec]
    temperature := Temperature.const (1 / 2)
    bgConstant := some 1
    splitterPresent := false
    acceptsPerArmFeatures := false
    emitPolicyInfo := []
    numSamplesList := [0, 0] }

/-- The policy `bothArgs` constructs. -/
noncomputable def bothPolicy : Policy :=
  { expectedNumActions := 2
    actionOffset := 0
    temperature := Temperature.const (1 / 2)
    bgConstant := some 1
    numSamplesList := [0, 0]
    emitPolicyInfo := []
    acceptsPerArmFeatures := false }

/-- Constructor arguments that supply both a callable temperature and a
Boltzmann-Gumbel exploration constant. -/
noncomputable def funcTempArgs : InitArgs :=
  { actionSpecs := [twoActionSpec]
    temperature := Temperature.func (fun _ => 3)
    bgConstant := some 1
    splitterPresent := false
    acceptsPerArmFeatures := false
    emitPolicyInfo := []
    numSamplesList := [0, 0] }

/-- Valid Boltzmann-Gumbel constructor arguments producing `bgPolicy`. -/
noncomputable def bgArgs : InitArgs :=
  { actionSpecs := [twoActionSpec]
    temperature := Temperature.const 1
    bgConstant := some 1
    splitterPresent := false
    acceptsPerArmFeatures := false
    emitPolicyInfo := []
    numSamplesList := [1, 1] }

/-- `bgPolicy` with temperature 5 instead of 1 — the policy `bgArgs` constructs
after replacing only the temperature argument. -/
noncomputable def bgPolicyAltTemp : Policy :=
  { expectedNumActions := 2
    actionOffset := 0
    temperature := Temperature.const 5
    bgConstant := some 1
    numSamplesList := [1, 1]
    emitPolicyInfo := []
    acceptsPerArmFeatures := false }

/-- The policy step `bgPolicy` produces on `maskOkInput`: the eligible action 1. -/
def maskOkOut : PolicyStepOut Unit × List ℕ :=
  ({ dist := EmittedDistribution.deterministic [1]
     state := ()
     info := { logProbability := none, predictedRewardsMean := none
               banditPolicyType := none, chosenArmFeatures := none } },
   [1, 1])

/-- The policy step `bgPolicy` produces on `maskViolationInput`: action 0, whose
mask value is 0. -/
def maskViolationOut : PolicyStepOut Unit × List ℕ :=
  ({ dist := EmittedDistribution.deterministic [0]
     state := ()
     info := { logProbability := none, predictedRewardsMean := none
               banditPolicyType := none, chosenArmFeatures := none } },
   [1, 1])

/-- The policy step `perArmPolicy` produces on `perArmInput`: despite the empty
emission set, the chosen-arm-features field is populated with the feature vector of
the chosen action 1. -/
noncomputable def perArmOut : PolicyStepOut Unit × List ℕ :=
  ({ dist := EmittedDistribution.deterministic [1]
     state := ()
     info := { logProbability := none, predictedRewardsMean := none
               banditPolicyType := none, chosenArmFeatures := some [[7]] } },
   [])

/-- The policy step `negOffsetPolicy` produces on `bgInput`: the Boltzmann-Gumbel
branch returns the unshifted arg-max index 1, which lies outside the policy's
action range `[-1, 0]`. -/
def negOffsetOut : PolicyStepOut Unit × List ℕ :=
  ({ dist := EmittedDistribution.deterministic [1]
     state := ()
     info := { logProbability := none, predictedRewardsMean := none
               banditPolicyType := none, chosenArmFeatures := none } },
   [0, 0])

/-! Helper lemmas about list indexing and the arg-max. -/

theorem getD_mem {α : Type} (l : List α) (b : ℕ) (d : α) (hb : b < l.length) :
    l.getD b d ∈ l := by
  induction l generalizing b with
  | nil => simp at hb
  | cons x xs ih =>
    cases b with
    | zero => simp
    | succ b =>
        simp only [List.getD_cons_succ]
        exact List.mem_cons_of_mem _ (ih b (by simpa using hb))

theorem getD_zipWith {α β γ : Type} (f : α → β → γ) (xs : List α) (ys : List β)
    (b : ℕ) (dx : α) (dy : β) (dz : γ) (hx : b < xs.length) (hy : b < ys.length) :
    (List.zipWith f xs ys).getD b dz = f (xs.getD b dx) (ys.getD b dy) := by
  induction xs generalizing ys b with
  | nil => simp at hx
  | cons x xs ih =>
    cases ys with
    | nil => simp at hy
    | cons y ys =>
      cases b with
      | zero => rfl
      | succ b =>
          simp only [List.zipWith_cons_cons, List.getD_cons_succ]
          exact ih ys b (by simpa using hx) (by simpa using hy)

theorem getD_map {α β : Type} (f : α → β) (xs : List α) (b : ℕ) (dx : α) (dy : β)
    (hb : b < xs.length) : (xs.map f).getD b dy = f (xs.getD b dx) := by
  induction xs generalizing b with
  | nil => simp at hb
  | cons x xs ih =>
    cases b with
    | zero => rfl
    | succ b =>
        simp only [List.map_cons, List.getD_cons_succ]
        exact ih b (by simpa using hb)

open Classical in
theorem amFoldl_eq_or_mem (l : List ℝ) (js : List ℕ) (b : ℕ) :
    js.foldl (fun best j => if l.getD best 0 < l.getD j 0 then j else best) b = b ∨
      js.foldl (fun best j => if l.getD best 0 < l.getD j 0 then j else best) b ∈ js := by
  induction js generalizing b with
  | nil => exact Or.inl rfl
  | cons j rest ih =>
    simp only [List.foldl_cons]
    rcases ih (if l.getD b 0 < l.getD j 0 then j else b) with h | h
    · rw [h]
      by_cases hc : l.getD b 0 < l.getD j 0
      · rw [if_pos hc]; exact Or.inr (List.mem_cons_self j rest)
      · rw [if_neg hc]; exact Or.inl rfl
    · exact Or.inr (List.mem_cons_of_mem _ h)

open Classical in
theorem amFoldl_le (l : List ℝ) (js : List ℕ) (b : ℕ) :
    l.getD b 0 ≤
        l.getD (js.foldl (fun best j => if l.getD best 0 < l.getD j 0 then j else best) b) 0 ∧
      ∀ j ∈ js,
        l.getD j 0 ≤
          l.getD (js.foldl (fun best j => if l.getD best 0 < l.getD j 0 then j else best) b) 0 := by
  induction js generalizing b with
  | nil => exact ⟨le_refl _, by simp⟩
  | cons j rest ih =>
    simp only [List.foldl_cons]
    have h1 : l.getD b 0 ≤ l.getD (if l.getD b 0 < l.getD j 0 then j else b) 0 := by
      by_cases hc : l.getD b 0 < l.getD j 0
      · rw [if_pos hc]; exact le_of_lt hc
      · rw [if_neg hc]
    have h2 : l.getD j 0 ≤ l.getD (if l.getD b 0 < l.getD j 0 then j else b) 0 := by
      by_cases hc : l.getD b 0 < l.getD j 0
      · rw [if_pos hc]
      · rw [if_neg hc]; exact le_of_not_lt hc
    obtain ⟨ihb, ihm⟩ := ih (if l.getD b 0 < l.getD j 0 then j else b)
    refine ⟨h1.trans ihb, ?_⟩
    intro k hk
    rcases List.mem_cons.mp hk with hk | hk
    · subst hk; exact h2.trans ihb
    · exact ihm k hk

theorem argmaxIdx_lt_length (l : List ℝ) (hl : 0 < l.length) : argmaxIdx l < l.length := by
  unfold argmaxIdx
  rcases amFoldl_eq_or_mem l (List.range l.length) 0 with h | h
  · rw [h]; exact hl
  · exact List.mem_range.mp h

theorem getD_le_getD_argmaxIdx (l : List ℝ) (j : ℕ) (hj : j < l.length) :
    l.getD j 0 ≤ l.getD (argmaxIdx l) 0 := by
  unfold argmaxIdx
  exact (amFoldl_le l (List.range l.length) 0).2 j (List.mem_range.mpr hj)

/-- If some eligible entry's score strictly exceeds every ineligible entry's score,
the arg-max lands on an eligible entry. -/
theorem argmaxIdx_eligible (s : List ℝ) (m : List ℕ) (j : ℕ) (hj : j < s.length)
    (hmj : m.getD j 0 ≠ 0)
    (hdom : ∀ k, k < s.length → m.getD k 0 = 0 → s.getD k 0 < s.getD j 0) :
    m.getD (argmaxIdx s) 0 ≠ 0 := by
  intro h0
  have hlt : argmaxIdx s < s.length := argmaxIdx_lt_length s (Nat.pos_of_ne_zero (by omega))
  have h2 := hdom (argmaxIdx s) hlt h0
  have h3 := getD_le_getD_argmaxIdx s j hj
  exact absurd (lt_of_le_of_lt h3 h2) (lt_irrefl _)

/-- Computation rule for the arg-max of a two-element row. -/
theorem argmaxIdx_pair (a b : ℝ) : argmaxIdx [a, b] = if a < b then 1 else 0 := by
  unfold argmaxIdx
  have h2 : List.range [a, b].length = [0, 1] := rfl
  rw [h2]
  simp only [List.foldl_cons, List.foldl_nil]
  rw [if_neg (show ¬ [a, b].getD 0 0 < [a, b].getD 0 0 from lt_irrefl _)]
  by_cases hab : a < b
  · rw [if_pos (show [a, b].getD 0 0 < [a, b].getD 1 0 from hab), if_pos hab]
  · rw [if_neg (show ¬ [a, b].getD 0 0 < [a, b].getD 1 0 from hab), if_neg hab]

/-! Extraction lemmas for the pipeline. -/

/-- A successful call is exactly the policy step built from the exploration engine's
output, the passthrough state and the unchanged counters. -/
theorem distribution_ok {σ : Type} (p : Policy) (inp : CallInput σ)
    (out : PolicyStepOut σ × List ℕ) (hok : distribution p inp = Except.ok out) :
    out = ({ dist := EmittedDistribution.deterministic (explorationStep p inp).1
             state := inp.nextState
             info := buildInfo p inp (explorationStep p inp).1 (explorationStep p inp).2 },
           p.numSamplesList) := by
  unfold distribution at hok
  rcases hc : checkPredictionShape inp.staticShape p.expectedNumActions with e | u
  · rw [hc] at hok; exact Except.noConfusion hok
  · rw [hc] at hok; exact (Except.ok.inj hok).symm

/-- A successfully constructed policy stores the constructor's Boltzmann-Gumbel
exploration constant unchanged. -/
theorem init_ok_bgConstant (a : InitArgs) (p : Policy) (h : init a = Except.ok p) :
    p.bgConstant = a.bgConstant := by
  unfold init initCore at h
  repeat' split at h
  all_goals first
    | exact Except.noConfusion h
    | (rw [← Except.ok.inj h])

/-- The core checks commute with replacing the temperature argument: none of them
reads the temperature. -/
theorem initCore_temperature_update (a : InitArgs) (t : Temperature)
    (spec : SpecComponent) :
    initCore { a with temperature := t } spec =
      (initCore a spec).map (fun p => { p with temperature := t }) := by
  unfold initCore
  dsimp only
  by_cases h1 : spec.isBounded = false ∨ spec.isDiscrete = false ∨ 1 < spec.rank ∨
      spec.numElements ≠ 1
  · rw [if_pos h1, if_pos h1]; rfl
  · rw [if_neg h1, if_neg h1]
    cases hb : a.bgConstant with
    | none => rfl
    | some c =>
        dsimp only
        by_cases hc : c ≤ 0
        · rw [if_pos hc, if_pos hc]; rfl
        · rw [if_neg hc, if_neg hc]
          by_cases ho : 0 < spec.minimum
          · rw [if_pos ho, if_pos ho]; rfl
          · rw [if_neg ho, if_neg ho]
            by_cases hp : a.acceptsPerArmFeatures = true
            · rw [if_pos hp, if_pos hp]; rfl
            · rw [if_neg hp, if_neg hp]
              by_cases hl : (a.numSamplesList.length : ℤ) ≠
                  spec.maximum - spec.minimum + 1
              · rw [if_pos hl, if_pos hl]; rfl
              · rw [if_neg hl, if_neg hl]; rfl

/-- Construction commutes with replacing the temperature argument: no check of
`__init__` reads the temperature. -/
theorem init_temperature_update (a : InitArgs) (t : Temperature) :
    init { a with temperature := t } =
      (init a).map (fun p => { p with temperature := t }) := by
  unfold init
  dsimp only
  by_cases h1 : a.acceptsPerArmFeatures = true ∧ a.splitterPresent = true
  · rw [if_pos h1, if_pos h1]; rfl
  · rw [if_neg h1, if_neg h1]
    by_cases h2 : 1 < a.actionSpecs.length
    · rw [if_pos h2, if_pos h2]; rfl
    · rw [if_neg h2, if_neg h2]
      cases hh : a.actionSpecs.head? with
      | none => rfl
      | some spec => exact initCore_temperature_update a t spec

theorem zipWith_ext {α β γ : Type} (f g : α → β → γ) (xs : List α) (ys : List β)
    (h : ∀ a b, f a b = g a b) : List.zipWith f xs ys = List.zipWith g xs ys := by
  induction xs generalizing ys with
  | nil => simp
  | cons x xs ih =>
    cases ys with
    | nil => simp
    | cons y ys => simp [h, ih]

theorem zipWith_map_left' {α β γ δ : Type} (f : γ → β → δ) (g : α → γ)
    (xs : List α) (ys : List β) :
    List.zipWith f (xs.map g) ys = List.zipWith (fun a b => f (g a) b) xs ys := by
  induction xs generalizing ys with
  | nil => simp
  | cons x xs ih =>
    cases ys with
    | nil => simp
    | cons y ys => simp [ih]

theorem map_zipWith' {α β γ δ : Type} (g : γ → δ) (f : α → β → γ)
    (xs : List α) (ys : List β) :
    (List.zipWith f xs ys).map g = List.zipWith (fun a b => g (f a b)) xs ys := by
  induction xs generalizing ys with
  | nil => simp
  | cons x xs ih =>
    cases ys with
    | nil => simp
    | cons y ys => simp [ih]

/-- In Boltzmann-Gumbel mode the chosen actions are the unshifted arg-max of the
per-row final scores: the source applies no action offset on this branch. -/
theorem explorationStep_fst_bg {σ : Type} (p : Policy) (inp : CallInput σ) (c : ℝ)
    (hbg : p.bgConstant = some c) :
    (explorationStep p inp).1 =
      (finalScores p inp).map (fun row => (argmaxIdx row : ℤ)) := by
  unfold explorationStep finalScores
  rw [hbg]

/-- In temperature mode the chosen actions are the arg-max of the per-row final
scores, shifted by the action offset. -/
theorem explorationStep_fst_temp {σ : Type} (p : Policy) (inp : CallInput σ)
    (hbg : p.bgConstant = none) :
    (explorationStep p inp).1 =
      (finalScores p inp).map (fun row => (argmaxIdx row : ℤ) + p.actionOffset) := by
  unfold explorationStep finalScores
  rw [hbg]
  dsimp only
  rw [zipWith_map_left', map_zipWith']
  apply zipWith_ext
  intro row g
  by_cases hoff : p.actionOffset = 0
  · simp [hoff, CatDist.sample]
  · simp [hoff, CatDist.sample]

/-- Length facts for the mask application. -/
theorem maskedLogits_facts (dtmin : ℝ) (mask : Option (List (List ℕ)))
    (rows : List (List ℝ)) (n : ℕ)
    (hrows : ∀ row ∈ rows, row.length = n)
    (hmask : ∀ m, mask = some m → m.length = rows.length ∧ ∀ row ∈ m, row.length = n) :
    (maskedLogits dtmin mask rows).length = rows.length ∧
      ∀ b, b < rows.length → ((maskedLogits dtmin mask rows).getD b []).length = n := by
  cases hm : mask with
  | none =>
      unfold maskedLogits
      exact ⟨rfl, fun b hb => hrows _ (getD_mem rows b [] hb)⟩
  | some m =>
      obtain ⟨hml, hmr⟩ := hmask m hm
      unfold maskedLogits
      constructor
      · rw [List.length_zipWith, hml, min_self]
      · intro b hb
        rw [getD_zipWith _ rows m b [] [] [] hb (by rw [hml]; exact hb)]
        rw [List.length_zipWith]
        rw [hrows _ (getD_mem rows b [] hb),
          hmr _ (getD_mem m b [] (by rw [hml]; exact hb))]
        exact min_self n

/-- Length facts for the final scores: one row of length `n` per batch element. -/
theorem finalScores_facts {σ : Type} (p : Policy) (inp : CallInput σ) (n : ℕ)
    (hrows : ∀ row ∈ inp.rows, row.length = n)
    (hnoiselen : inp.noise.length = inp.rows.length)
    (hnoise : ∀ row ∈ inp.noise, row.length = n)
    (hmask : ∀ m, inp.mask = some m → m.length = inp.rows.length ∧
      ∀ row ∈ m, row.length = n)
    (hcounts : ∀ c, p.bgConstant = some c → p.numSamplesList.length = n) :
    (finalScores p inp).length = inp.rows.length ∧
      ∀ b, b < inp.rows.length → ((finalScores p inp).getD b []).length = n := by
  unfold finalScores
  rcases hbg : p.bgConstant with _ | c
  · have htrows : ∀ row ∈ temperatureLogits p inp.rows, row.length = n := by
      intro row hrow
      rcases List.mem_map.mp hrow with ⟨row0, hrow0, hrow0eq⟩
      rw [← hrow0eq, List.length_map]
      exact hrows row0 hrow0
    have htlen : (temperatureLogits p inp.rows).length = inp.rows.length :=
      List.length_map _ _
    have hm := maskedLogits_facts inp.dtypeMin inp.mask (temperatureLogits p inp.rows) n
      htrows (by intro m hmm; obtain ⟨h1, h2⟩ := hmask m hmm; exact ⟨by rw [h1, htlen], h2⟩)
    rw [htlen] at hm
    constructor
    · rw [List.length_zipWith, hm.1, hnoiselen, min_self]
    · intro b hb
      rw [getD_zipWith _ _ inp.noise b [] [] [] (by rw [hm.1]; exact hb)
        (by rw [hnoiselen]; exact hb)]
      rw [List.length_zipWith, hm.2 b hb, hnoise _ (getD_mem inp.noise b []
        (by rw [hnoiselen]; exact hb)), min_self]
  · have hm := maskedLogits_facts inp.dtypeMin inp.mask inp.rows n hrows hmask
    constructor
    · unfold bgScores
      rw [List.length_zipWith, hm.1, hnoiselen, min_self]
    · intro b hb
      unfold bgScores
      rw [getD_zipWith _ _ inp.noise b [] [] [] (by rw [hm.1]; exact hb)
        (by rw [hnoiselen]; exact hb)]
      rw [List.length_zipWith, hm.2 b hb, List.length_zipWith, List.length_map,
        hcounts c hbg, hnoise _ (getD_mem inp.noise b [] (by rw [hnoiselen]; exact hb))]
      omega

/-- Replacing the temperature of a Boltzmann-Gumbel-mode policy does not change any
call's result. -/
theorem distribution_temperature_update {σ : Type} (p : Policy) (t : Temperature)
    (c : ℝ) (hbg : p.bgConstant = some c) (inp : CallInput σ) :
    distribution { p with temperature := t } inp = distribution p inp := by
  unfold distribution
  dsimp only
  rcases hc : checkPredictionShape inp.staticShape p.expectedNumActions with e | u
  · rfl
  · have hstep : explorationStep { p with temperature := t } inp =
        explorationStep p inp := by
      unfold explorationStep
      dsimp only
      rw [hbg]
    rw [hstep]
    rfl

/-- Under the hygiene checks of `__init__`, construction reduces to the core checks
on the single spec component. -/
theorem init_eq_initCore (a : InitArgs) (spec : SpecComponent)
    (hspec : a.actionSpecs = [spec])
    (hns : ¬(a.acceptsPerArmFeatures = true ∧ a.splitterPresent = true)) :
    init a = initCore a spec := by
  unfold init
  rw [if_neg hns, hspec]
  rw [if_neg (by simp : ¬ 1 < ([spec] : List SpecComponent).length)]
  rfl

/-- Evaluation: `bgArgs` constructs `bgPolicy`. -/
theorem init_bgArgs_eval : init bgArgs = Except.ok bgPolicy := by
  rw [init_eq_initCore bgArgs twoActionSpec rfl (by simp [bgArgs])]
  norm_num [initCore, bgArgs, twoActionSpec, bgPolicy]

/-- Evaluation: `bgArgs` with temperature 5 constructs `bgPolicyAltTemp`. -/
theorem init_bgArgsAlt_eval :
    init { bgArgs with temperature := Temperature.const 5 } =
      Except.ok bgPolicyAltTemp := by
  rw [init_eq_initCore { bgArgs with temperature := Temperature.const 5 } twoActionSpec
    rfl (by simp [bgArgs])]
  norm_num [initCore, bgArgs, twoActionSpec, bgPolicyAltTemp]

/-! Evaluation lemmas: the pipeline computed on the concrete calls above. -/

/-- The exploration engine on `bgPolicy`/`bgInput` chooses action 1 with
log-probability 0. -/
theorem explorationStep_bg_eval : explorationStep bgPolicy bgInput = ([1], [0]) := by
  simp only [explorationStep, bgPolicy, bgInput, maskedLogits, bgScores,
    explorationWeight, divideNoNan, List.map_cons, List.map_nil,
    List.zipWith_cons_cons, List.zipWith_nil_right, List.zipWith_nil_left]
  norm_num [argmaxIdx_pair, Real.sqrt_one, List.replicate]

/-- The full call on `bgPolicy`/`bgInput`. -/
theorem distribution_bg_eval : distribution bgPolicy bgInput = Except.ok bgOut := by
  have hc : checkPredictionShape bgInput.staticShape bgPolicy.expectedNumActions =
      Except.ok () := rfl
  unfold distribution
  rw [hc]
  dsimp only
  rw [explorationStep_bg_eval]
  rfl

/-- The exploration engine of any temperature-1, zero-offset, temperature-mode
policy on a call with rewards `[[0, 1]]`, no mask and zero noise chooses action 1. -/
theorem explorationStep_fst_eval (p : Policy) (inp : CallInput Unit)
    (hbg : p.bgConstant = none) (ht : p.temperature = Temperature.const 1)
    (hoff : p.actionOffset = 0) (hrows : inp.rows = [[0, 1]])
    (hmask : inp.mask = none) (hnoise : inp.noise = [[0, 0]]) :
    (explorationStep p inp).1 = [1] := by
  simp only [explorationStep, hbg, ht, hoff, hrows, hmask, hnoise, maskedLogits,
    temperatureLogits, getTemperatureValue, CatDist.sample, List.map_cons,
    List.map_nil, List.zipWith_cons_cons, List.zipWith_nil_right, List.zipWith_nil_left]
  norm_num [argmaxIdx_pair]

/-- The full call on `tempPolicy`/`tempInput`. -/
theorem distribution_temp_eval : distribution tempPolicy tempInput = Except.ok tempOut := by
  have hc : checkPredictionShape tempInput.staticShape tempPolicy.expectedNumActions =
      Except.ok () := rfl
  have hstep : (explorationStep tempPolicy tempInput).1 = [1] :=
    explorationStep_fst_eval _ _ rfl rfl rfl rfl rfl rfl
  unfold distribution
  rw [hc]
  dsimp only
  rw [hstep]
  rfl

/-- The full call on `meanPolicy`/`tempInput`. -/
theorem distribution_mean_eval : distribution meanPolicy tempInput = Except.ok meanOut := by
  have hc : checkPredictionShape tempInput.staticShape meanPolicy.expectedNumActions =
      Except.ok () := rfl
  have hstep : (explorationStep meanPolicy tempInput).1 = [1] :=
    explorationStep_fst_eval _ _ rfl rfl rfl rfl rfl rfl
  unfold distribution
  rw [hc]
  dsimp only
  rw [hstep]
  rfl

/-- The full call on `perArmPolicy`/`perArmInput`. -/
theorem distribution_perArm_eval :
    distribution perArmPolicy perArmInput = Except.ok perArmOut := by
  have hc : checkPredictionShape perArmInput.staticShape perArmPolicy.expectedNumActions =
      Except.ok () := rfl
  have hstep : (explorationStep perArmPolicy perArmInput).1 = [1] :=
    explorationStep_fst_eval _ _ rfl rfl rfl rfl rfl rfl
  unfold distribution
  rw [hc]
  dsimp only
  rw [hstep]
  rfl

/-- The exploration engine on `bgPolicy`/`maskOkInput` chooses the eligible
action 1. -/
theorem explorationStep_maskOk_eval :
    explorationStep bgPolicy maskOkInput = ([1], [0]) := by
  simp only [explorationStep, bgPolicy, maskOkInput, maskedLogits, bgScores,
    explorationWeight, divideNoNan, List.map_cons, List.map_nil,
    List.zipWith_cons_cons, List.zipWith_nil_right, List.zipWith_nil_left]
  norm_num [argmaxIdx_pair, Real.sqrt_one, List.replicate]

/-- The full call on `bgPolicy`/`maskOkInput`. -/
theorem distribution_maskOk_eval :
    distribution bgPolicy maskOkInput = Except.ok maskOkOut := by
  have hc : checkPredictionShape maskOkInput.staticShape bgPolicy.expectedNumActions =
      Except.ok () := rfl
  unfold distribution
  rw [hc]
  dsimp only
  rw [explorationStep_maskOk_eval]
  rfl

/-- The exploration engine on `bgPolicy`/`maskViolationInput` chooses the masked-out
action 0: the eligible action's dtype-minimum reward ties the sentinel, and the
Gumbel draw of the masked action wins. -/
theorem explorationStep_maskViolation_eval :
    explorationStep bgPolicy maskViolationInput = ([0], [0]) := by
  simp only [explorationStep, bgPolicy, maskViolationInput, maskedLogits, bgScores,
    explorationWeight, divideNoNan, float32Min, List.map_cons, List.map_nil,
    List.zipWith_cons_cons, List.zipWith_nil_right, List.zipWith_nil_left]
  norm_num [argmaxIdx_pair, Real.sqrt_one, List.replicate]

/-- The full call on `bgPolicy`/`maskViolationInput`. -/
theorem distribution_maskViolation_eval :
    distribution bgPolicy maskViolationInput = Except.ok maskViolationOut := by
  have hc : checkPredictionShape maskViolationInput.staticShape
      bgPolicy.expectedNumActions = Except.ok () := rfl
  unfold distribution
  rw [hc]
  dsimp only
  rw [explorationStep_maskViolation_eval]
  rfl

/-- The exploration engine on `negOffsetPolicy`/`bgInput`: all counts are zero, so
all exploration bonuses are zero and the arg-max of `[0, 5]` is the unshifted
index 1. -/
theorem explorationStep_negOffset_eval :
    explorationStep negOffsetPolicy bgInput = ([1], [0]) := by
  simp only [explorationStep, negOffsetPolicy, bgInput, maskedLogits, bgScores,
    explorationWeight, divideNoNan, List.map_cons, List.map_nil,
    List.zipWith_cons_cons, List.zipWith_nil_right, List.zipWith_nil_left]
  norm_num [argmaxIdx_pair, Real.sqrt_zero, List.replicate]

/-- The full call on `negOffsetPolicy`/`bgInput`. -/
theorem distribution_negOffset_eval :
    distribution negOffsetPolicy bgInput = Except.ok negOffsetOut := by
  have hc : checkPredictionShape bgInput.staticShape negOffsetPolicy.expectedNumActions =
      Except.ok () := rfl
  unfold distribution
  rw [hc]
  dsimp only
  rw [explorationStep_negOffset_eval]
  rfl

/-! The claims. -/

/-- Claim C5: in Boltzmann-Gumbel mode the exploration bonus of an action with zero
running sample count evaluates to exactly zero (a finite real value, so neither an
infinity nor a division error), and for a positive count it equals
`c / sqrt(n_a)`. -/
theorem c5_zero_count_zero_bonus (c : ℝ) (n : ℕ) :
    (n = 0 → explorationWeight c n = 0) ∧
    (0 < n → explorationWeight c n = c / Real.sqrt n) := by
  constructor
  · intro h
    subst h
    simp [explorationWeight, divideNoNan]
  · intro h
    have hpos : (0 : ℝ) < Real.sqrt n := Real.sqrt_pos.mpr (by exact_mod_cast h)
    simp [explorationWeight, divideNoNan, ne_of_gt hpos]

/-- Witness for C5 at the counts 0 and 4. -/
theorem c5_witness :
    explorationWeight 2 0 = 0 ∧ explorationWeight 2 4 = 2 / Real.sqrt ((4 : ℕ) : ℝ) :=
  ⟨(c5_zero_count_zero_bonus 2 0).1 rfl, (c5_zero_count_zero_bonus 2 4).2 (by norm_num)⟩

/-- Claim C8: a per-call shape-consistency error is raised exactly when the
predicted-reward tensor's rank is outside `[2, 3]` or its statically known last
dimension differs from `expected_num_actions`; an unknown last dimension raises no
error, and the shape check is the only error source of a call. -/
theorem c8_shape_error_iff (shape : List (Option ℕ)) (n : ℤ) :
    (isErr (checkPredictionShape shape n) = true ↔
      shape.length < 2 ∨ 3 < shape.length ∨
        ∃ d : ℕ, shape.getLast? = some (some d) ∧ (d : ℤ) ≠ n) ∧
    ∀ (p : Policy) (inp : CallInput Unit), p.expectedNumActions = n →
      inp.staticShape = shape →
      isErr (distribution p inp) = isErr (checkPredictionShape shape n) := by
  constructor
  · by_cases h1 : shape.length < 2
    · refine iff_of_true ?_ (Or.inl h1)
      unfold checkPredictionShape
      rw [if_pos h1]
      rfl
    · by_cases h2 : 3 < shape.length
      · refine iff_of_true ?_ (Or.inr (Or.inl h2))
        unfold checkPredictionShape
        rw [if_neg h1, if_pos h2]
        rfl
      · rcases hlast : shape.getLast? with _ | od
        · refine iff_of_false ?_ ?_
          · unfold checkPredictionShape
            rw [if_neg h1, if_neg h2, hlast]
            simp [isErr]
          · rintro (h | h | ⟨d, hd, _⟩)
            · exact h1 h
            · exact h2 h
            · exact Option.noConfusion hd
        · cases od with
          | none =>
              refine iff_of_false ?_ ?_
              · unfold checkPredictionShape
                rw [if_neg h1, if_neg h2, hlast]
                simp [isErr]
              · rintro (h | h | ⟨d, hd, _⟩)
                · exact h1 h
                · exact h2 h
                · exact Option.noConfusion (Option.some.inj hd)
          | some d =>
              by_cases hd : (d : ℤ) ≠ n
              · refine iff_of_true ?_ (Or.inr (Or.inr ⟨d, rfl, hd⟩))
                unfold checkPredictionShape
                rw [if_neg h1, if_neg h2, hlast]
                dsimp only
                rw [if_pos hd]
                rfl
              · refine iff_of_false ?_ ?_
                · unfold checkPredictionShape
                  rw [if_neg h1, if_neg h2, hlast]
                  dsimp only
                  rw [if_neg hd]
                  simp [isErr]
                · rintro (h | h | ⟨e, he, hne⟩)
                  · exact h1 h
                  · exact h2 h
                  · have hde : d = e := Option.some.inj (Option.some.inj he)
                    exact hd (hde ▸ hne)
  · intro p inp hn hs
    unfold distribution
    rw [hn, hs]
    rcases hc : checkPredictionShape shape n with e | u
    · rfl
    · rfl

/-- Witness for C8: a known rank-2 shape whose last dimension 3 differs from the
expected 2 actions is rejected. -/
theorem c8_witness : isErr (checkPredictionShape [some 1, some 3] 2) = true :=
  (c8_shape_error_iff [some 1, some 3] 2).1.mpr
    (Or.inr (Or.inr ⟨3, rfl, by norm_num⟩))

/-- Claim C2: in Boltzmann-Gumbel mode the chosen action of every successful call
equals the arg-max, over the action dimension, of the masked logits plus
`(c / sqrt(n_a))` times the per-batch-element-per-action Gumbel draw (cast to the
action dtype via the coercion to the integers), and the reported log-probability is
the constant zero for every batch element. -/
theorem c2_gumbel_argmax_and_zero_logprob {σ : Type} (p : Policy) (inp : CallInput σ)
    (c : ℝ) (out : PolicyStepOut σ × List ℕ)
    (hbg : p.bgConstant = some c)
    (hok : distribution p inp = Except.ok out) :
    out.1.dist = EmittedDistribution.deterministic
      ((bgScores c p.numSamplesList (maskedLogits inp.dtypeMin inp.mask inp.rows)
        inp.noise).map (fun row => (argmaxIdx row : ℤ))) ∧
    (explorationStep p inp).2 = List.replicate inp.rows.length 0 ∧
    (InfoField.logProbability ∈ p.emitPolicyInfo →
      out.1.info.logProbability = some (List.replicate inp.rows.length 0)) := by
  have h := distribution_ok p inp out hok
  subst h
  refine ⟨?_, ?_, ?_⟩
  · simp [explorationStep, hbg]
  · simp [explorationStep, hbg]
  · intro hmem
    simp [buildInfo, hmem, explorationStep, hbg]

/-- Witness for C2 on `bgPolicy`/`bgInput`. -/
theorem c2_witness :
    bgOut.1.dist = EmittedDistribution.deterministic
      ((bgScores 1 bgPolicy.numSamplesList
        (maskedLogits bgInput.dtypeMin bgInput.mask bgInput.rows) bgInput.noise).map
          (fun row => (argmaxIdx row : ℤ))) ∧
    (explorationStep bgPolicy bgInput).2 = List.replicate bgInput.rows.length 0 := by
  have h := c2_gumbel_argmax_and_zero_logprob bgPolicy bgInput 1 bgOut rfl
    distribution_bg_eval
  exact ⟨h.1, h.2.1⟩

/-- Claim C3: in temperature mode, every successful call scales the predicted
rewards by the resolved temperature (calling the temperature source when it is
callable, using it directly otherwise), replaces masked-out entries with the
minimum representable value of the logits dtype before sampling, samples the action
as the categorical draw of the masked logits shifted by the action offset, and
reports the log-probability of the sampled action under that same categorical
distribution. -/
theorem c3_temperature_path {σ : Type} (p : Policy) (inp : CallInput σ)
    (out : PolicyStepOut σ × List ℕ)
    (hbg : p.bgConstant = none)
    (hok : distribution p inp = Except.ok out) :
    (∀ t, p.temperature = Temperature.const t → getTemperatureValue p.temperature = t) ∧
    (∀ f, p.temperature = Temperature.func f →
      getTemperatureValue p.temperature = f ()) ∧
    out.1.dist = EmittedDistribution.deterministic
      (List.zipWith (fun row g =>
          (argmaxIdx (List.zipWith (fun x y => x + y) row g) : ℤ) + p.actionOffset)
        (maskedLogits inp.dtypeMin inp.mask
          (inp.rows.map (fun row =>
            row.map (fun x => x / getTemperatureValue p.temperature))))
        inp.noise) ∧
    (explorationStep p inp).2 = List.zipWith (fun row g =>
        categoricalLogProb row (argmaxIdx (List.zipWith (fun x y => x + y) row g) : ℤ))
      (maskedLogits inp.dtypeMin inp.mask
        (inp.rows.map (fun row =>
          row.map (fun x => x / getTemperatureValue p.temperature))))
      inp.noise := by
  have h := distribution_ok p inp out hok
  subst h
  refine ⟨?_, ?_, ?_, ?_⟩
  · intro t ht; rw [ht]; rfl
  · intro f hf; rw [hf]; rfl
  · show EmittedDistribution.deterministic (explorationStep p inp).1 = _
    refine congrArg _ ?_
    simp only [explorationStep, hbg, temperatureLogits]
    rw [zipWith_map_left']
    apply zipWith_ext
    intro row g
    by_cases hoff : p.actionOffset = 0
    · simp [hoff, CatDist.sample]
    · simp [hoff, CatDist.sample]
  · simp only [explorationStep, hbg, temperatureLogits]
    rw [zipWith_map_left']
    apply zipWith_ext
    intro row g
    by_cases hoff : p.actionOffset = 0
    · simp [hoff, CatDist.sample, CatDist.logProb]
    · simp [hoff, CatDist.sample, CatDist.logProb]

/-- Witness for C3 on `tempPolicy`/`tempInput`. -/
theorem c3_witness :
    getTemperatureValue tempPolicy.temperature = 1 ∧
    tempOut.1.dist = EmittedDistribution.deterministic
      (List.zipWith (fun row g =>
          (argmaxIdx (List.zipWith (fun x y => x + y) row g) : ℤ) +
            tempPolicy.actionOffset)
        (maskedLogits tempInput.dtypeMin tempInput.mask
          (tempInput.rows.map (fun row =>
            row.map (fun x => x / getTemperatureValue tempPolicy.temperature))))
        tempInput.noise) := by
  have h := c3_temperature_path tempPolicy tempInput tempOut rfl distribution_temp_eval
  exact ⟨h.1 1 rfl, h.2.2.1⟩

/-- Claim C6 (amended): for every successful call, the `log_probability`,
`predicted_rewards_mean` and `bandit_policy_type` info fields are each present
exactly when their name appears in the configured emission set and are the explicit
empty marker otherwise; `chosen_arm_features`, however, is present exactly when
per-arm-feature mode is on, regardless of the emission set.  In particular, with an
empty emission set and per-arm mode off all info fields are absent, and with the
emission set `[predicted_rewards_mean]` only the mean field is populated, with the
raw predicted-rewards tensor. -/
theorem c6_info_emission_gating {σ : Type} (p : Policy) (inp : CallInput σ)
    (out : PolicyStepOut σ × List ℕ)
    (hok : distribution p inp = Except.ok out) :
    (out.1.info.logProbability =
      if InfoField.logProbability ∈ p.emitPolicyInfo then some (explorationStep p inp).2
      else none) ∧
    (out.1.info.predictedRewardsMean =
      if InfoField.predictedRewardsMean ∈ p.emitPolicyInfo then some inp.rows
      else none) ∧
    (out.1.info.banditPolicyType =
      if InfoField.banditPolicyType ∈ p.emitPolicyInfo then
        some (List.replicate inp.rows.length [BanditPolicyType.boltzmann])
      else none) ∧
    (out.1.info.chosenArmFeatures =
      if p.acceptsPerArmFeatures = true then
        some (List.zipWith (fun feats a => feats.getD a.toNat []) inp.armFeatures
          (explorationStep p inp).1)
      else none) ∧
    (p.emitPolicyInfo = [] → p.acceptsPerArmFeatures = false →
      out.1.info = ⟨none, none, none, none⟩) ∧
    (p.emitPolicyInfo = [InfoField.predictedRewardsMean] →
      p.acceptsPerArmFeatures = false →
      out.1.info = ⟨none, some inp.rows, none, none⟩) := by
  have h := distribution_ok p inp out hok
  subst h
  refine ⟨rfl, rfl, rfl, rfl, ?_, ?_⟩
  · intro he hp
    simp [buildInfo, he, hp]
  · intro he hp
    simp [buildInfo, he, hp]

/-- Counterexample for C6 as stated: in per-arm mode with an empty emission set the
`chosen_arm_features` field is populated even though its name is not in the
emission set. -/
theorem c6_counterexample :
    distribution perArmPolicy perArmInput = Except.ok perArmOut ∧
    perArmOut.1.info.chosenArmFeatures = some [[7]] ∧
    InfoField.chosenArmFeatures ∉ perArmPolicy.emitPolicyInfo :=
  ⟨distribution_perArm_eval, rfl, by simp [perArmPolicy]⟩

/-- Witness for C6 on `meanPolicy`/`tempInput`: only the mean field is populated. -/
theorem c6_witness :
    meanOut.1.info = ⟨none, some tempInput.rows, none, none⟩ :=
  (c6_info_emission_gating meanPolicy tempInput meanOut
    distribution_mean_eval).2.2.2.2.2 rfl rfl

/-- Claim C9: every successful call emits a degenerate point-mass (Deterministic)
distribution located at the already-chosen actions, passes the reward network's
recurrent state through unchanged as the only state transition, and leaves the
`num_samples_list` counters exactly as it read them. -/
theorem c9_point_mass_and_frame {σ : Type} (p : Policy) (inp : CallInput σ)
    (out : PolicyStepOut σ × List ℕ)
    (hok : distribution p inp = Except.ok out) :
    out.1.dist = EmittedDistribution.deterministic (explorationStep p inp).1 ∧
    out.1.state = inp.nextState ∧
    out.2 = p.numSamplesList := by
  have h := distribution_ok p inp out hok
  subst h
  exact ⟨rfl, rfl, rfl⟩

/-- Witness for C9 on `bgPolicy`/`bgInput`. -/
theorem c9_witness :
    bgOut.1.dist = EmittedDistribution.deterministic (explorationStep bgPolicy bgInput).1 ∧
    bgOut.1.state = bgInput.nextState ∧
    bgOut.2 = bgPolicy.numSamplesList :=
  c9_point_mass_and_frame bgPolicy bgInput bgOut distribution_bg_eval

/-- Claim C4 (amended): with an otherwise valid action spec, construction in
Boltzmann-Gumbel mode fails if and only if the exploration constant is not strictly
positive, or the action offset is strictly positive (a negative offset — an action
range that does not start at zero either — is accepted), or per-arm-feature mode is
requested, or the sample-count vector length differs from the expected number of
actions. -/
theorem c4_gumbel_construction_error_iff (a : InitArgs) (spec : SpecComponent) (c : ℝ)
    (hspec : a.actionSpecs = [spec])
    (hb : spec.isBounded = true) (hd : spec.isDiscrete = true)
    (hr : spec.rank ≤ 1) (he : spec.numElements = 1)
    (hns : ¬(a.acceptsPerArmFeatures = true ∧ a.splitterPresent = true))
    (hbg : a.bgConstant = some c) :
    isErr (init a) = true ↔
      c ≤ 0 ∨ 0 < spec.minimum ∨ a.acceptsPerArmFeatures = true ∨
        (a.numSamplesList.length : ℤ) ≠ spec.maximum - spec.minimum + 1 := by
  rw [init_eq_initCore a spec hspec hns]
  unfold initCore
  rw [if_neg (by simp [hb, hd, he]; omega :
    ¬(spec.isBounded = false ∨ spec.isDiscrete = false ∨ 1 < spec.rank ∨
      spec.numElements ≠ 1))]
  rw [hbg]
  dsimp only
  by_cases hc : c ≤ 0
  · rw [if_pos hc]
    exact ⟨fun _ => Or.inl hc, fun _ => rfl⟩
  · rw [if_neg hc]
    by_cases ho : 0 < spec.minimum
    · rw [if_pos ho]
      exact ⟨fun _ => Or.inr (Or.inl ho), fun _ => rfl⟩
    · rw [if_neg ho]
      by_cases hp : a.acceptsPerArmFeatures = true
      · rw [if_pos hp]
        exact ⟨fun _ => Or.inr (Or.inr (Or.inl hp)), fun _ => rfl⟩
      · rw [if_neg hp]
        by_cases hl : (a.numSamplesList.length : ℤ) ≠ spec.maximum - spec.minimum + 1
        · rw [if_pos hl]
          exact ⟨fun _ => Or.inr (Or.inr (Or.inr hl)), fun _ => rfl⟩
        · rw [if_neg hl]
          constructor
          · intro hcontr
            exact absurd hcontr (by simp [isErr])
          · rintro (h | h | h | h)
            · exact absurd h hc
            · exact absurd h ho
            · exact absurd h hp
            · exact absurd h hl

/-- Counterexample for C4 as stated: a Boltzmann-Gumbel policy whose action range
`[-1, 0]` does not start at zero is nevertheless constructed without error, because
the source only rejects a strictly positive offset. -/
theorem c4_counterexample :
    init negOffsetArgs = Except.ok negOffsetPolicy ∧
    negOffsetPolicy.actionOffset ≠ 0 ∧
    negOffsetArgs.bgConstant = some 1 := by
  refine ⟨?_, by norm_num [negOffsetPolicy], rfl⟩
  rw [init_eq_initCore negOffsetArgs negOffsetSpec rfl (by simp [negOffsetArgs])]
  norm_num [initCore, negOffsetArgs, negOffsetSpec, negOffsetPolicy]

/-- Witness for C4: a zero exploration constant is rejected. -/
theorem c4_witness : isErr (init badConstArgs) = true :=
  (c4_gumbel_construction_error_iff badConstArgs twoActionSpec 0 rfl rfl rfl
    (by norm_num [twoActionSpec]) rfl (by simp [badConstArgs]) rfl).mpr
    (Or.inl le_rfl)

/-- Claim C7 (amended): a temperature and a Boltzmann-Gumbel exploration constant
are not mutually exclusive at construction — for every constructor call that
supplies both (and otherwise satisfies the Boltzmann-Gumbel validity conditions),
construction succeeds, for any temperature value or callable; the temperature is
simply stored unused. -/
theorem c7_both_supplied_construction_succeeds (a : InitArgs) (spec : SpecComponent)
    (c : ℝ)
    (hspec : a.actionSpecs = [spec])
    (hb : spec.isBounded = true) (hd : spec.isDiscrete = true)
    (hr : spec.rank ≤ 1) (he : spec.numElements = 1)
    (hns : ¬(a.acceptsPerArmFeatures = true ∧ a.splitterPresent = true))
    (hbg : a.bgConstant = some c) (hc : 0 < c) (ho : spec.minimum ≤ 0)
    (hp : a.acceptsPerArmFeatures = false)
    (hl : (a.numSamplesList.length : ℤ) = spec.maximum - spec.minimum + 1) :
    init a = Except.ok
      { expectedNumActions := spec.maximum - spec.minimum + 1
        actionOffset := spec.minimum
        temperature := a.temperature
        bgConstant := a.bgConstant
        numSamplesList := a.numSamplesList
        emitPolicyInfo := a.emitPolicyInfo
        acceptsPerArmFeatures := a.acceptsPerArmFeatures } := by
  rw [init_eq_initCore a spec hspec hns]
  unfold initCore
  rw [if_neg (by simp [hb, hd, he]; omega :
    ¬(spec.isBounded = false ∨ spec.isDiscrete = false ∨ 1 < spec.rank ∨
      spec.numElements ≠ 1))]
  rw [hbg]
  dsimp only
  rw [if_neg (not_le.mpr hc), if_neg (not_lt.mpr ho), if_neg (by simp [hp]),
    if_neg (by simp [hl])]

/-- Counterexample for C7 as stated: supplying both the temperature `1/2` and the
exploration constant `1` does not make construction fail. -/
theorem c7_counterexample :
    init bothArgs = Except.ok bothPolicy ∧
    bothArgs.temperature = Temperature.const (1 / 2) ∧
    bothArgs.bgConstant = some 1 := by
  refine ⟨?_, rfl, rfl⟩
  rw [init_eq_initCore bothArgs twoActionSpec rfl (by simp [bothArgs])]
  norm_num [initCore, bothArgs, twoActionSpec, bothPolicy]

/-- Witness for C7: construction succeeds with a callable temperature supplied next
to the exploration constant. -/
theorem c7_witness :
    init funcTempArgs = Except.ok
      { expectedNumActions := twoActionSpec.maximum - twoActionSpec.minimum + 1
        actionOffset := twoActionSpec.minimum
        temperature := funcTempArgs.temperature
        bgConstant := funcTempArgs.bgConstant
        numSamplesList := funcTempArgs.numSamplesList
        emitPolicyInfo := funcTempArgs.emitPolicyInfo
        acceptsPerArmFeatures := funcTempArgs.acceptsPerArmFeatures } :=
  c7_both_supplied_construction_succeeds funcTempArgs twoActionSpec 1 rfl rfl rfl
    (by norm_num [twoActionSpec]) rfl (by simp [funcTempArgs]) rfl one_pos
    (by norm_num [twoActionSpec]) rfl (by norm_num [funcTempArgs, twoActionSpec])

/-- Claim C10: when a Boltzmann-Gumbel exploration constant is configured, the
temperature has no effect — two policies constructed from identical arguments
except for their temperature produce, on every identical call with identical random
draws, identical results (action distribution, log-probabilities, info record,
state and counters). -/
theorem c10_temperature_no_effect_in_gumbel_mode {σ : Type} (a : InitArgs)
    (t : Temperature) (c : ℝ) (p q : Policy) (inp : CallInput σ)
    (hbg : a.bgConstant = some c)
    (hp : init a = Except.ok p)
    (hq : init { a with temperature := t } = Except.ok q) :
    distribution p inp = distribution q inp := by
  have hpbg : p.bgConstant = some c := by rw [init_ok_bgConstant a p hp, hbg]
  have hq2 : Except.ok q = (init a).map
      (fun r => { r with temperature := t }) := by
    rw [← init_temperature_update a t, hq]
  rw [hp] at hq2
  have hq3 : q = { p with temperature := t } := by
    simpa [Except.map] using hq2
  subst hq3
  exact (distribution_temperature_update p t c hpbg inp).symm

/-- Witness for C10: `bgArgs` with temperatures 1 and 5 yield the same call result
on `bgInput`. -/
theorem c10_witness : distribution bgPolicy bgInput = distribution bgPolicyAltTemp bgInput :=
  c10_temperature_no_effect_in_gumbel_mode bgArgs (Temperature.const 5) 1 bgPolicy
    bgPolicyAltTemp bgInput rfl init_bgArgs_eval init_bgArgsAlt_eval

/-- Claim C1 (amended): for every successful call with well-formed shapes, the
returned action distribution is located at the exploration engine's actions, one
per batch element.  In temperature mode each action lies within
`[action_offset, action_offset + expected_num_actions - 1]`; in Boltzmann-Gumbel
mode it lies within `[0, expected_num_actions - 1]` — which coincides with the
claimed range only for a zero offset, and a negative-offset Boltzmann-Gumbel
policy is constructible (see the counterexample), so the claimed range is false
there.  When a mask is supplied, for every batch element for which some eligible
action's final score strictly exceeds every ineligible action's final score, the
chosen action's mask value is 1; the unconditional masking clause of the claim is
false (see the counterexample) because masked-out entries keep the finite sentinel
`dtype.min` and can still win the arg-max. -/
theorem c1_action_range_and_masking {σ : Type} (p : Policy) (inp : CallInput σ)
    (out : PolicyStepOut σ × List ℕ) (n : ℕ)
    (hn : p.expectedNumActions = (n : ℤ)) (hn1 : 0 < n)
    (hrows : ∀ row ∈ inp.rows, row.length = n)
    (hnoiselen : inp.noise.length = inp.rows.length)
    (hnoise : ∀ row ∈ inp.noise, row.length = n)
    (hmask : ∀ m, inp.mask = some m → m.length = inp.rows.length ∧
      (∀ row ∈ m, row.length = n) ∧ ∀ row ∈ m, ∀ v ∈ row, v = 0 ∨ v = 1)
    (hcounts : ∀ c, p.bgConstant = some c → p.numSamplesList.length = n)
    (hok : distribution p inp = Except.ok out) :
    out.1.dist = EmittedDistribution.deterministic (explorationStep p inp).1 ∧
    (explorationStep p inp).1.length = inp.rows.length ∧
    (p.bgConstant = none → ∀ b, b < inp.rows.length →
      p.actionOffset ≤ (explorationStep p inp).1.getD b 0 ∧
      (explorationStep p inp).1.getD b 0 < p.actionOffset + (n : ℤ)) ∧
    (∀ c, p.bgConstant = some c → ∀ b, b < inp.rows.length →
      0 ≤ (explorationStep p inp).1.getD b 0 ∧
      (explorationStep p inp).1.getD b 0 < (n : ℤ)) ∧
    (p.bgConstant = none → ∀ m, inp.mask = some m → ∀ b, b < inp.rows.length →
      (∃ j, j < n ∧ (m.getD b []).getD j 0 ≠ 0 ∧
        ∀ k, k < n → (m.getD b []).getD k 0 = 0 →
          ((finalScores p inp).getD b []).getD k 0 <
            ((finalScores p inp).getD b []).getD j 0) →
      (m.getD b []).getD
        ((explorationStep p inp).1.getD b 0 - p.actionOffset).toNat 0 = 1) ∧
    (∀ c, p.bgConstant = some c → ∀ m, inp.mask = some m →
      ∀ b, b < inp.rows.length →
      (∃ j, j < n ∧ (m.getD b []).getD j 0 ≠ 0 ∧
        ∀ k, k < n → (m.getD b []).getD k 0 = 0 →
          ((finalScores p inp).getD b []).getD k 0 <
            ((finalScores p inp).getD b []).getD j 0) →
      (m.getD b []).getD ((explorationStep p inp).1.getD b 0).toNat 0 = 1) := by
  have hfs := finalScores_facts p inp n hrows hnoiselen hnoise
    (fun m hm => ⟨(hmask m hm).1, (hmask m hm).2.1⟩) hcounts
  have hamaxlt : ∀ b, b < inp.rows.length →
      argmaxIdx ((finalScores p inp).getD b []) < n := by
    intro b hb
    have hrowlen := hfs.2 b hb
    rw [← hrowlen]
    exact argmaxIdx_lt_length _ (by rw [hrowlen]; exact hn1)
  have hmaskcore : ∀ m, inp.mask = some m → ∀ b, b < inp.rows.length →
      (∃ j, j < n ∧ (m.getD b []).getD j 0 ≠ 0 ∧
        ∀ k, k < n → (m.getD b []).getD k 0 = 0 →
          ((finalScores p inp).getD b []).getD k 0 <
            ((finalScores p inp).getD b []).getD j 0) →
      (m.getD b []).getD (argmaxIdx ((finalScores p inp).getD b [])) 0 = 1 := by
    intro m hm b hb hex
    obtain ⟨j, hj, hmj, hdom⟩ := hex
    have hrowlen := hfs.2 b hb
    obtain ⟨hml, hmrlen, hm01⟩ := hmask m hm
    have hmb : (m.getD b []).length = n :=
      hmrlen _ (getD_mem m b [] (by rw [hml]; exact hb))
    have hne : (m.getD b []).getD
        (argmaxIdx ((finalScores p inp).getD b [])) 0 ≠ 0 := by
      apply argmaxIdx_eligible ((finalScores p inp).getD b []) (m.getD b []) j
        (by rw [hrowlen]; exact hj) hmj
      intro k hk hk0
      exact hdom k (by rw [← hrowlen]; exact hk) hk0
    have hval := hm01 _ (getD_mem m b [] (by rw [hml]; exact hb)) _
      (getD_mem (m.getD b []) (argmaxIdx ((finalScores p inp).getD b [])) 0
        (by rw [hmb]; exact hamaxlt b hb))
    rcases hval with h0 | h1
    · exact absurd h0 hne
    · exact h1
  refine ⟨?_, ?_, ?_, ?_, ?_, ?_⟩
  · have h := distribution_ok p inp out hok
    subst h
    rfl
  · rcases hbgc : p.bgConstant with _ | c
    · rw [explorationStep_fst_temp p inp hbgc, List.length_map, hfs.1]
    · rw [explorationStep_fst_bg p inp c hbgc, List.length_map, hfs.1]
  · intro hbg b hb
    rw [explorationStep_fst_temp p inp hbg,
      getD_map _ (finalScores p inp) b [] 0 (by rw [hfs.1]; exact hb)]
    have hlt := hamaxlt b hb
    omega
  · intro c hbg b hb
    rw [explorationStep_fst_bg p inp c hbg,
      getD_map _ (finalScores p inp) b [] 0 (by rw [hfs.1]; exact hb)]
    have hlt := hamaxlt b hb
    omega
  · intro hbg m hm b hb hex
    rw [explorationStep_fst_temp p inp hbg,
      getD_map _ (finalScores p inp) b [] 0 (by rw [hfs.1]; exact hb)]
    have htn : ((argmaxIdx ((finalScores p inp).getD b []) : ℤ) + p.actionOffset -
        p.actionOffset).toNat = argmaxIdx ((finalScores p inp).getD b []) := by
      omega
    rw [htn]
    exact hmaskcore m hm b hb hex
  · intro c hbg m hm b hb hex
    rw [explorationStep_fst_bg p inp c hbg,
      getD_map _ (finalScores p inp) b [] 0 (by rw [hfs.1]; exact hb)]
    have htn : ((argmaxIdx ((finalScores p inp).getD b []) : ℤ)).toNat =
        argmaxIdx ((finalScores p inp).getD b []) := by
      omega
    rw [htn]
    exact hmaskcore m hm b hb hex

/-- Counterexample for C1 as stated, refuting both clauses.  Masking: on
`bgPolicy`/`maskViolationInput` the call succeeds, the mask row `[0, 1]` contains
an eligible action (index 1), yet the chosen action 0 has mask value 0 — the
eligible action's predicted reward equals the finite `dtype.min` sentinel, so the
masked-out action's Gumbel bonus wins the arg-max.  Range: `negOffsetArgs`
constructs a Boltzmann-Gumbel policy with action range `[-1, 0]`, and its call on
`bgInput` returns the unshifted arg-max action 1, which exceeds
`action_offset + expected_num_actions - 1 = 0`. -/
theorem c1_counterexample :
    (distribution bgPolicy maskViolationInput = Except.ok maskViolationOut ∧
      maskViolationOut.1.dist = EmittedDistribution.deterministic [0] ∧
      maskViolationInput.mask = some [[0, 1]] ∧
      (([[0, 1]] : List (List ℕ)).getD 0 []).getD 0 0 = 0 ∧
      (([[0, 1]] : List (List ℕ)).getD 0 []).getD 1 0 = 1) ∧
    (init negOffsetArgs = Except.ok negOffsetPolicy ∧
      distribution negOffsetPolicy bgInput = Except.ok negOffsetOut ∧
      negOffsetOut.1.dist = EmittedDistribution.deterministic [1] ∧
      negOffsetPolicy.actionOffset = -1 ∧
      negOffsetPolicy.expectedNumActions = 2 ∧
      negOffsetPolicy.actionOffset + negOffsetPolicy.expectedNumActions - 1 <
        (1 : ℤ)) := by
  refine ⟨⟨distribution_maskViolation_eval, rfl, rfl, rfl, rfl⟩,
    ⟨?_, distribution_negOffset_eval, rfl, rfl, rfl, by norm_num [negOffsetPolicy]⟩⟩
  rw [init_eq_initCore negOffsetArgs negOffsetSpec rfl (by simp [negOffsetArgs])]
  norm_num [initCore, negOffsetArgs, negOffsetSpec, negOffsetPolicy]

/-- Witness for C1 on `bgPolicy`/`maskOkInput` at batch element 0 (Boltzmann-Gumbel
mode, so the range is `[0, 1]` and the mask is indexed by the action itself). -/
theorem c1_witness :
    (0 : ℤ) ≤ (explorationStep bgPolicy maskOkInput).1.getD 0 0 ∧
    (explorationStep bgPolicy maskOkInput).1.getD 0 0 < ((2 : ℕ) : ℤ) ∧
    (([[1, 1]] : List (List ℕ)).getD 0 []).getD
      ((explorationStep bgPolicy maskOkInput).1.getD 0 0).toNat 0 = 1 := by
  have h := c1_action_range_and_masking bgPolicy maskOkInput maskOkOut 2
    rfl (by norm_num)
    (by intro row hrow; simp [maskOkInput] at hrow; subst hrow; rfl)
    rfl
    (by intro row hrow; simp [maskOkInput] at hrow; subst hrow; rfl)
    (by
      intro m hm
      simp [maskOkInput] at hm
      subst hm
      refine ⟨rfl, ?_, ?_⟩
      · intro row hrow
        simp at hrow
        subst hrow
        rfl
      · intro row hrow v hv
        simp at hrow
        subst hrow
        simp at hv
        omega)
    (by intro c _; rfl)
    distribution_maskOk_eval
  refine ⟨(h.2.2.2.1 1 rfl 0 (by norm_num [maskOkInput])).1,
    (h.2.2.2.1 1 rfl 0 (by norm_num [maskOkInput])).2, ?_⟩
  exact h.2.2.2.2.2 1 rfl [[1, 1]] rfl 0 (by norm_num [maskOkInput])
    ⟨1, by norm_num, by decide,
      by intro k hk h0; interval_cases k <;> simp at h0⟩

end Boltzmann
